import Mathlib

/-!
Shallow embedding of the Aurora Weather application (`src/App.js`), a React
Native UI with two network flows: a location resolver (`searchCity`) and a
forecast fetcher (`fetchWeather`), plus a pure weather-code classifier
(`codeToEmoji`) and hourly-row rendering (`HourRow`).

Modelling conventions:
- JSON numbers (temperatures, coordinates, codes, precipitation probabilities)
  are modelled as `Int`; no claim involves numeric computation on them, they
  are only moved between structures.
- `undefined` values (absent JSON fields, out-of-range array indexing) are
  modelled with `Option`; JS `a?.b?.c || []` becomes `Option.bind` + `getD []`.
- The network is modelled as an explicit `FetchResult` argument: `thrown`
  (the fetch promise rejected), `badStatus` (`!res.ok`), or `ok body`
  (a parsed JSON body).  The request each flow issues is returned alongside
  the new state, so that "performs a network request" is observable.
- React `useState` cells are gathered into one `AppState` record; each flow
  is a function from prior state (plus inputs and network outcome) to new
  state, mirroring the sequential body of the JS async function.
-/

namespace Aurora

/-- The `mode` state: `"basic"` (temperature only) or `"precip"`
(temperature plus precipitation probability); the spec calls these
`basic` and `withPrecipitation`. -/
inductive Mode
  | basic
  | precip
deriving DecidableEq, Repr

/-- A resolved place as built in `searchCity`:
`{ id: `${r.id}`, name, country, lat: r.latitude, lon: r.longitude }`. -/
structure Place where
  id : String
  name : String
  country : String
  lat : Int
  lon : Int
deriving DecidableEq, Repr

/-- One hourly row as built in `fetchWeather`:
`{ key: time, time, temp: temp[i], code: code[i], pop: ... }`.
`temp`, `code`, `pop` are `Option` because indexing past the end of a
parallel array yields `undefined` in JS. -/
structure HourSample where
  key : String
  time : String
  temp : Option Int
  code : Option Int
  pop : Option Int
deriving DecidableEq, Repr

/-- One record of the geocoding response's `results` array. -/
structure GeoRecord where
  id : Int
  name : String
  country : String
  latitude : Int
  longitude : Int
deriving DecidableEq, Repr

/-- Parsed geocoding response body; `results` is `none` when the JSON body
has no `results` field (the code guards with `data.results || []`). -/
structure GeoBody where
  results : Option (List GeoRecord)
deriving DecidableEq, Repr

/-- The `hourly` object of the forecast response: parallel arrays, each of
which may be absent (the code guards each with `data?.hourly?.X || []`). -/
structure HourlyData where
  time : Option (List String)
  temperature_2m : Option (List Int)
  weathercode : Option (List Int)
  precipitation_probability : Option (List Int)
deriving DecidableEq, Repr

/-- Parsed forecast response body; `hourly` may be absent. -/
structure ForecastBody where
  hourly : Option HourlyData
deriving DecidableEq, Repr

/-- Outcome of one `fetch` call: the promise rejected (`thrown`), the
response had a non-success HTTP status (`badStatus`, i.e. `!res.ok`), or a
JSON body was obtained (`ok`). -/
inductive FetchResult (β : Type)
  | thrown
  | badStatus
  | ok (body : β)
deriving DecidableEq, Repr

/-- The `useState` cells of the `App` component. -/
structure AppState where
  query : String
  recent : List String
  mode : Mode
  cities : List Place
  loadingCity : Bool
  loadingWx : Bool
  error : String
  place : Option Place
  hours : List HourSample
deriving DecidableEq, Repr

/-- The initial state of the component (the `useState` initialisers). -/
def initialState : AppState :=
  { query := ""
    recent := ["Hamilton", "Toronto", "New York"]
    mode := Mode.basic
    cities := []
    loadingCity := false
    loadingWx := false
    error := ""
    place := none
    hours := [] }

/-- `codeToEmoji` from `src/App.js`: maps an Open-Meteo weather code to an
emoji via successive `includes` tests, with `"🌀"` as the fallback. -/
def codeToEmoji (code : Int) : String :=
  if ([0] : List Int).contains code then "☀️"
  else if ([1, 2] : List Int).contains code then "🌤️"
  else if ([3] : List Int).contains code then "☁️"
  else if ([45, 48] : List Int).contains code then "🌫️"
  else if ([51, 53, 55, 56, 57] : List Int).contains code then "🌦️"
  else if ([61, 63, 65, 66, 67, 80, 81, 82] : List Int).contains code then "🌧️"
  else if ([71, 73, 75, 77, 85, 86] : List Int).contains code then "❄️"
  else if ([95, 96, 99] : List Int).contains code then "⛈️"
  else "🌀"

/-- The nine emoji categories: eight known plus the `"🌀"` fallback. -/
def emojiCategories : List String :=
  ["☀️", "🌤️", "☁️", "🌫️", "🌦️", "🌧️", "❄️", "⛈️", "🌀"]

/-- The error message set in `searchCity`'s catch block. -/
def searchErrorMessage : String :=
  "City search failed. Check your connection or try a different name."

/-- The error message set in `fetchWeather`'s catch block. -/
def forecastErrorMessage : String :=
  "Could not load forecast. Please try again."

/-- The query-string parameters of the geocoding GET request
(`?name=...&count=5&language=en&format=json`). -/
structure GeoRequest where
  name : String
  count : Nat
  language : String
  format : String
deriving DecidableEq, Repr

/-- The geocoding request `searchCity` builds for query `q`. -/
def geoRequest (q : String) : GeoRequest :=
  { name := q, count := 5, language := "en", format := "json" }

/-- The query-string parameters of the forecast GET request
(`?latitude=...&longitude=...&hourly=...&timezone=auto`). -/
structure ForecastRequest where
  latitude : Int
  longitude : Int
  hourly : String
  timezone : String
deriving DecidableEq, Repr

/-- The `hourly` parameter chosen from the mode in `fetchWeather`. -/
def hourlyFields (m : Mode) : String :=
  match m with
  | Mode.precip => "temperature_2m,precipitation_probability,weathercode"
  | Mode.basic => "temperature_2m,weathercode"

/-- The forecast request `fetchWeather` builds for place `p` under mode `m`. -/
def forecastRequest (m : Mode) (p : Place) : ForecastRequest :=
  { latitude := p.lat, longitude := p.lon, hourly := hourlyFields m, timezone := "auto" }

/-- The mapping applied to each geocoding result record in `searchCity`. -/
def toPlace (r : GeoRecord) : Place :=
  { id := toString r.id
    name := r.name
    country := r.country
    lat := r.latitude
    lon := r.longitude }

/-- Model of JS `String.prototype.toLowerCase`: lowercases each character
(`String.toLower` in core is defined by well-founded recursion and does not
evaluate in the kernel, so the equivalent character-map form is used). -/
def lowercase (s : String) : String :=
  String.mk (s.data.map Char.toLower)

/-- The recent-list update in `searchCity`:
`[q, ...prev.filter(x => x.toLowerCase() !== q.toLowerCase())].slice(0, 8)`. -/
def updateRecent (q : String) (prev : List String) : List String :=
  (q :: prev.filter (fun x => lowercase x != lowercase q)).take 8

/-- Model of JS `String.prototype.trim`: drops leading and trailing
whitespace (`String.trim` in core is defined via well-founded recursion and
does not evaluate in the kernel, so the equivalent char-list form is used). -/
def trim (s : String) : String :=
  String.mk (((s.data.dropWhile Char.isWhitespace).reverse.dropWhile
    Char.isWhitespace).reverse)

/-- JS `text || query`: the argument if it is a truthy (non-empty) string,
otherwise the `query` state; `none` models calling `searchCity()` with no
argument (`undefined`). -/
def effQuery (text : Option String) (stateQuery : String) : String :=
  match text with
  | none => stateQuery
  | some t => if t = "" then stateQuery else t

/-- `searchCity` from `src/App.js`, as a state transition.  Returns the new
state together with the geocoding request issued (`none` when the early
`if (!q) return` fires and no request is made). -/
def searchCity (s : AppState) (text : Option String) (res : FetchResult GeoBody) :
    AppState × Option GeoRequest :=
  let q := trim (effQuery text s.query)
  if q = "" then (s, none)
  else
    let s1 : AppState := { s with loadingCity := true, error := "", cities := [] }
    match res with
    | FetchResult.thrown =>
        ({ s1 with error := searchErrorMessage, loadingCity := false }, some (geoRequest q))
    | FetchResult.badStatus =>
        ({ s1 with error := searchErrorMessage, loadingCity := false }, some (geoRequest q))
    | FetchResult.ok body =>
        ({ s1 with
            cities := (body.results.getD []).map toPlace
            recent := updateRecent q s.recent
            loadingCity := false }, some (geoRequest q))

/-- `data?.hourly?.time || []`. -/
def hourlyTimes (b : ForecastBody) : List String :=
  (b.hourly.bind HourlyData.time).getD []

/-- `data?.hourly?.temperature_2m || []`. -/
def hourlyTemps (b : ForecastBody) : List Int :=
  (b.hourly.bind HourlyData.temperature_2m).getD []

/-- `data?.hourly?.weathercode || []`. -/
def hourlyCodes (b : ForecastBody) : List Int :=
  (b.hourly.bind HourlyData.weathercode).getD []

/-- `data?.hourly?.precipitation_probability || []`. -/
def hourlyPops (b : ForecastBody) : List Int :=
  (b.hourly.bind HourlyData.precipitation_probability).getD []

/-- The row construction in `fetchWeather`:
`t.slice(0, 24).map((time, i) => ({ key: time, time, temp: temp[i], code: code[i], pop: pop ? pop[i] : undefined }))`.
Since `pop` is always an array (`|| []`, and arrays are truthy in JS even
when empty), `pop ? pop[i] : undefined` is just `pop[i]`, i.e. `get? i`. -/
def mkRows (b : ForecastBody) : List HourSample :=
  ((hourlyTimes b).take 24).enum.map fun it =>
    { key := it.2
      time := it.2
      temp := (hourlyTemps b).get? it.1
      code := (hourlyCodes b).get? it.1
      pop := (hourlyPops b).get? it.1 }

/-- The synchronous prefix of `fetchWeather` before `await fetch`:
`setLoadingWx(true); setError(""); setPlace(p); setHours([])`. -/
def fetchWeatherStart (s : AppState) (p : Place) : AppState :=
  { s with loadingWx := true, error := "", place := some p, hours := [] }

/-- The continuation of `fetchWeather` after the network resolves; on
`thrown`/`badStatus` the catch block runs, on `ok` the rows are built.
`finally` clears the loading flag either way. -/
def fetchWeatherFinish (s : AppState) (res : FetchResult ForecastBody) : AppState :=
  match res with
  | FetchResult.thrown => { s with error := forecastErrorMessage, loadingWx := false }
  | FetchResult.badStatus => { s with error := forecastErrorMessage, loadingWx := false }
  | FetchResult.ok body => { s with hours := mkRows body, loadingWx := false }

/-- `fetchWeather` from `src/App.js`, as a state transition.  Returns the
new state and the forecast request issued (`none` when `if (!p) return`
fires). -/
def fetchWeather (s : AppState) (pOpt : Option Place) (res : FetchResult ForecastBody) :
    AppState × Option ForecastRequest :=
  match pOpt with
  | none => (s, none)
  | some p =>
      (fetchWeatherFinish (fetchWeatherStart s p) res, some (forecastRequest s.mode p))

/-- The `useEffect` on `[mode]`: switching mode to `m` updates the state and,
if a place is selected, re-invokes `fetchWeather` on it.  Returns the new
state and the list of forecast requests issued by the switch. -/
def switchMode (s : AppState) (m : Mode) (res : FetchResult ForecastBody) :
    AppState × List ForecastRequest :=
  let s1 : AppState := { s with mode := m }
  match s1.place with
  | some p =>
      let out := fetchWeather s1 (some p) res
      (out.1, out.2.toList)
  | none => (s1, [])

/-- What one `HourRow` displays: the formatted time, the emoji, the rounded
temperature (`none` models `NaN` from `Math.round(undefined)`), and the
precipitation text, which is rendered only under `mode === "precip"`
(`popText = none` means the precipitation `<Text>` element is absent). -/
structure RenderedHourRow where
  timeText : String
  emoji : String
  tempText : Option Int
  popText : Option Int
deriving DecidableEq, Repr

/-- `codeToEmoji(item.code)` where `item.code` may be `undefined`: no
`includes` list contains `undefined`, so the fallback is returned. -/
def codeEmojiOfSample (c : Option Int) : String :=
  match c with
  | some code => codeToEmoji code
  | none => "🌀"

/-- The `HourRow` component as a pure render function.  The JS displays
`{item.pop ?? 0}%` only when `mode === "precip"`; `??` turns an
absent/undefined `pop` into `0`. -/
def renderHourRow (m : Mode) (item : HourSample) : RenderedHourRow :=
  { timeText := item.time
    emoji := codeEmojiOfSample item.code
    tempText := item.temp
    popText := if m = Mode.precip then some (item.pop.getD 0) else none }

/-- Case-insensitive distinctness of a list of strings. -/
def ciDistinct (l : List String) : Prop :=
  l.Pairwise (fun a b => lowercase a ≠ lowercase b)

/-! ## Theorems -/

/-- C2: the weather-code classifier is total and deterministic: every integer
weather code maps to one of the 9 categories (8 known emoji plus the `"🌀"`
fallback), and equal inputs always yield equal outputs. -/
theorem codeToEmoji_total_deterministic :
    ∀ c : Int, codeToEmoji c ∈ emojiCategories ∧
      ∀ d : Int, c = d → codeToEmoji c = codeToEmoji d := by
  intro c
  constructor
  · unfold codeToEmoji emojiCategories
    split_ifs <;> simp
  · intro d h
    rw [h]

/-- Witness for C2 at the concrete code 95 (thunderstorm). -/
theorem codeToEmoji_total_deterministic_witness :
    codeToEmoji 95 ∈ emojiCategories ∧ codeToEmoji 95 = codeToEmoji 95 :=
  ⟨(codeToEmoji_total_deterministic 95).1,
   (codeToEmoji_total_deterministic 95).2 95 rfl⟩

/-- C4: in `basic` mode a rendered hour row displays no precipitation value
(the precipitation element is absent), and in `precip` mode a sample whose
precipitation value is absent renders it as 0. -/
theorem renderHourRow_precipitation (item : HourSample) :
    (renderHourRow Mode.basic item).popText = none ∧
    (item.pop = none → (renderHourRow Mode.precip item).popText = some 0) := by
  refine ⟨rfl, fun h => ?_⟩
  simp [renderHourRow, h]

/-- Witness for C4 at a concrete sample with absent precipitation. -/
theorem renderHourRow_precipitation_witness :
    (HourSample.mk "t" "t" (some 20) (some 0) none).pop = none ∧
    (renderHourRow Mode.precip (HourSample.mk "t" "t" (some 20) (some 0) none)).popText
      = some 0 :=
  ⟨rfl, (renderHourRow_precipitation (HourSample.mk "t" "t" (some 20) (some 0) none)).2 rfl⟩

/-- C3: submitting a non-empty trimmed query `q` updates the recent list so
that `q` is first, no other entry is case-insensitively equal to `q`, the
list has at most 8 entries, and case-insensitive distinctness is preserved
(so re-adding an existing query moves it to the front without duplicating). -/
theorem updateRecent_spec (q : String) (prev : List String) :
    (updateRecent q prev).head? = some q ∧
    (updateRecent q prev).length ≤ 8 ∧
    (∀ x ∈ (updateRecent q prev).tail, lowercase x ≠ lowercase q) ∧
    (ciDistinct prev → ciDistinct (updateRecent q prev)) := by
  unfold updateRecent
  refine ⟨?_, ?_, ?_, ?_⟩
  · rw [List.take_succ_cons]
    rfl
  · simp [List.length_take_le]
  · intro x hx
    rw [List.take_succ_cons] at hx
    have hx' : x ∈ prev.filter (fun y => lowercase y != lowercase q) :=
      List.take_subset _ _ hx
    have := (List.mem_filter.1 hx').2
    simpa using this
  · intro hprev
    refine List.Pairwise.sublist (List.take_sublist _ _) ?_
    rw [List.pairwise_cons]
    constructor
    · intro b hb
      have := (List.mem_filter.1 hb).2
      intro hqb
      simp only [bne_iff_ne, ne_eq] at this
      exact this hqb.symm
    · exact List.Pairwise.sublist (List.filter_sublist _) hprev

/-- Witness for C3: re-adding "toronto" to a distinct recent list. -/
theorem updateRecent_spec_witness :
    ciDistinct ["Hamilton", "Toronto", "New York"] ∧
    ciDistinct (updateRecent "toronto" ["Hamilton", "Toronto", "New York"]) :=
  ⟨by simp [ciDistinct]; decide,
   (updateRecent_spec "toronto" ["Hamilton", "Toronto", "New York"]).2.2.2
     (by simp [ciDistinct]; decide)⟩

/-- C1: for every state, place, mode and successfully parsed forecast body,
the resulting hour sequence has `min |time| 24` entries (so at most 24), and
entry `i` zips the parallel arrays at index `i`: its time is `time[i]` and
its temperature, code and precipitation are the (possibly absent) values of
the corresponding arrays at `i`; when the precipitation array is missing or
empty, every sample's precipitation value is absent. -/
theorem fetchWeather_ok_rows (s : AppState) (p : Place) (b : ForecastBody) :
    ((fetchWeather s (some p) (FetchResult.ok b)).1.hours.length
        = min (hourlyTimes b).length 24 ∧
      (fetchWeather s (some p) (FetchResult.ok b)).1.hours.length ≤ 24) ∧
    (∀ i, i < 24 →
      (fetchWeather s (some p) (FetchResult.ok b)).1.hours.get? i
        = ((hourlyTimes b).get? i).map (fun time =>
            { key := time, time := time
              temp := (hourlyTemps b).get? i
              code := (hourlyCodes b).get? i
              pop := (hourlyPops b).get? i })) ∧
    (hourlyPops b = [] →
      ∀ h ∈ (fetchWeather s (some p) (FetchResult.ok b)).1.hours, h.pop = none) := by
  have hrows : (fetchWeather s (some p) (FetchResult.ok b)).1.hours = mkRows b := rfl
  rw [hrows]
  refine ⟨⟨?_, ?_⟩, ?_, ?_⟩
  · simp [mkRows, Nat.min_comm]
  · simp [mkRows, Nat.min_le_right]
  · intro i hi
    simp only [mkRows, List.get?_eq_getElem?, List.getElem?_map, List.getElem?_enum,
      List.getElem?_take_of_lt hi]
    cases (hourlyTimes b)[i]? <;> rfl
  · intro hpop h hh
    simp only [mkRows, List.mem_map] at hh
    obtain ⟨it, _, rfl⟩ := hh
    simp [hpop]

/-- Witness for C1 at a concrete two-hour body with no precipitation array. -/
theorem fetchWeather_ok_rows_witness :
    (0 : Nat) < 24 ∧
    hourlyPops (ForecastBody.mk (some (HourlyData.mk
        (some ["2024-01-01T00:00", "2024-01-01T01:00"]) (some [5, 6]) (some [0, 3]) none)))
      = [] ∧
    (fetchWeather initialState
        (some (Place.mk "1" "Hamilton" "Canada" 43 (-79)))
        (FetchResult.ok (ForecastBody.mk (some (HourlyData.mk
          (some ["2024-01-01T00:00", "2024-01-01T01:00"]) (some [5, 6]) (some [0, 3])
          none))))).1.hours.get? 0
      = some { key := "2024-01-01T00:00", time := "2024-01-01T00:00"
               temp := some 5, code := some 0, pop := none } :=
  ⟨by decide, rfl, by
    have := ((fetchWeather_ok_rows initialState
      (Place.mk "1" "Hamilton" "Canada" 43 (-79))
      (ForecastBody.mk (some (HourlyData.mk
        (some ["2024-01-01T00:00", "2024-01-01T01:00"]) (some [5, 6]) (some [0, 3])
        none)))).2.1 0 (by decide))
    rw [this]
    rfl⟩

/-- C5: for every non-empty trimmed query, the geocoding request carries a
result count of 5; hence for a successful response whose `results` array
respects that requested count, the candidate list has at most 5 entries, and
each candidate's latitude and longitude are taken verbatim from the
corresponding response record. -/
theorem searchCity_ok_candidates (s : AppState) (text : Option String) (b : GeoBody)
    (hq : trim (effQuery text s.query) ≠ "")
    (hcount : (b.results.getD []).length ≤ (geoRequest (trim (effQuery text s.query))).count) :
    (searchCity s text (FetchResult.ok b)).2
        = some (geoRequest (trim (effQuery text s.query))) ∧
    (geoRequest (trim (effQuery text s.query))).count = 5 ∧
    (searchCity s text (FetchResult.ok b)).1.cities.length ≤ 5 ∧
    ∀ c ∈ (searchCity s text (FetchResult.ok b)).1.cities,
      ∃ r ∈ b.results.getD [], c.lat = r.latitude ∧ c.lon = r.longitude := by
  have hcities : (searchCity s text (FetchResult.ok b)).1.cities
      = (b.results.getD []).map toPlace := by
    unfold searchCity
    simp [hq]
  have hreq : (searchCity s text (FetchResult.ok b)).2
      = some (geoRequest (trim (effQuery text s.query))) := by
    unfold searchCity
    simp [hq]
  refine ⟨hreq, rfl, ?_, ?_⟩
  · rw [hcities, List.length_map]
    exact hcount
  · intro c hc
    rw [hcities] at hc
    obtain ⟨r, hr, rfl⟩ := List.mem_map.1 hc
    exact ⟨r, hr, rfl, rfl⟩

/-- Witness for C5 at the query "Hamilton" and a one-result response. -/
theorem searchCity_ok_candidates_witness :
    trim (effQuery (some "Hamilton") initialState.query) ≠ "" ∧
    ((GeoBody.mk (some [GeoRecord.mk 100 "Hamilton" "Canada" 43 (-79)])).results.getD
        []).length ≤ (geoRequest (trim (effQuery (some "Hamilton") initialState.query))).count ∧
    (searchCity initialState (some "Hamilton")
        (FetchResult.ok (GeoBody.mk (some [GeoRecord.mk 100 "Hamilton" "Canada" 43 (-79)])))).1.cities.length
      ≤ 5 :=
  ⟨by decide, by decide,
   (searchCity_ok_candidates initialState (some "Hamilton")
      (GeoBody.mk (some [GeoRecord.mk 100 "Hamilton" "Canada" 43 (-79)]))
      (by decide) (by decide)).2.2.1⟩

/-- C7 counterexample: the claim says every input string whose trimmed form
is empty makes the search a no-op, but JS evaluates `text || query`, so the
empty string argument (falsy) falls back to the `query` state: with the
state query "Hamilton", invoking `searchCity("")` issues a network request
(and, here, fills the candidate list), although `"".trim()` is empty. -/
theorem searchCity_empty_arg_not_noop :
    trim "" = "" ∧
    (searchCity { initialState with query := "Hamilton" } (some "")
        (FetchResult.ok (GeoBody.mk (some [GeoRecord.mk 100 "Hamilton" "Canada" 43 (-79)])))).2
      = some (geoRequest "Hamilton") ∧
    (searchCity { initialState with query := "Hamilton" } (some "")
        (FetchResult.ok (GeoBody.mk (some [GeoRecord.mk 100 "Hamilton" "Canada" 43 (-79)])))).1.cities
      ≠ [] := by
  refine ⟨rfl, by decide, by decide⟩

/-- C7 (amended): whenever the effective query — the text argument if it is
a non-empty string, otherwise the stored query state — trims to empty, the
search operation is a no-op: it issues no network request and returns the
state unchanged. -/
theorem searchCity_effective_empty_noop (s : AppState) (text : Option String)
    (res : FetchResult GeoBody) (h : trim (effQuery text s.query) = "") :
    searchCity s text res = (s, none) := by
  unfold searchCity
  simp [h]

/-- Witness for the amended C7: a whitespace-only argument is a no-op. -/
theorem searchCity_effective_empty_noop_witness :
    trim (effQuery (some "   ") initialState.query) = "" ∧
    searchCity initialState (some "   ") (FetchResult.ok (GeoBody.mk none))
      = (initialState, none) :=
  ⟨by decide,
   searchCity_effective_empty_noop initialState (some "   ")
     (FetchResult.ok (GeoBody.mk none)) (by decide)⟩

/-- C10: a success-status geocoding response whose body lacks a `results`
field is a successful search with zero candidates: the candidate list is set
to empty, the error message is cleared, and the recent-query list is still
updated with the submitted query. -/
theorem searchCity_missing_results (s : AppState) (text : Option String)
    (hq : trim (effQuery text s.query) ≠ "") :
    (searchCity s text (FetchResult.ok (GeoBody.mk none))).1.cities = [] ∧
    (searchCity s text (FetchResult.ok (GeoBody.mk none))).1.error = "" ∧
    (searchCity s text (FetchResult.ok (GeoBody.mk none))).1.recent
      = updateRecent (trim (effQuery text s.query)) s.recent ∧
    (searchCity s text (FetchResult.ok (GeoBody.mk none))).2
      = some (geoRequest (trim (effQuery text s.query))) := by
  unfold searchCity
  simp [hq]

/-- Witness for C10 at the query "Paris" from the initial state. -/
theorem searchCity_missing_results_witness :
    trim (effQuery (some "Paris") initialState.query) ≠ "" ∧
    (searchCity initialState (some "Paris") (FetchResult.ok (GeoBody.mk none))).1.cities = []
      ∧
    (searchCity initialState (some "Paris") (FetchResult.ok (GeoBody.mk none))).1.recent
      = updateRecent "Paris" initialState.recent :=
  ⟨by decide,
   (searchCity_missing_results initialState (some "Paris") (by decide)).1,
   (searchCity_missing_results initialState (some "Paris") (by decide)).2.2.1⟩

/-- C6 counterexample: the claim says a failure sets one error message "and
nothing else", but a failed forecast fetch also changes the selected place:
starting from a state where "Hamilton" is selected, a thrown fetch for
"Toronto" leaves "Toronto" selected — a state change beyond the error
message (the hour sequence is cleared and the message set as claimed). -/
theorem fetchWeather_failure_changes_place :
    (fetchWeather
        { initialState with place := some (Place.mk "1" "Hamilton" "Canada" 43 (-79)) }
        (some (Place.mk "2" "Toronto" "Canada" 44 (-79)))
        FetchResult.thrown).1.error = forecastErrorMessage ∧
    (fetchWeather
        { initialState with place := some (Place.mk "1" "Hamilton" "Canada" 43 (-79)) }
        (some (Place.mk "2" "Toronto" "Canada" 44 (-79)))
        FetchResult.thrown).1.place
      ≠ { initialState with
            place := some (Place.mk "1" "Hamilton" "Canada" 43 (-79)) }.place := by
  exact ⟨rfl, by decide⟩

/-- C6 (amended): on a thrown exception or non-success HTTP status, each
flow sets exactly its one generic error message; the search flow leaves the
candidate list empty and changes nothing else, and the forecast flow leaves
the hour sequence empty and — beyond additionally recording the requested
place as selected — changes nothing else; both flows return normally, so no
error propagates past the flow boundary. -/
theorem flows_failure_behavior (s : AppState) (text : Option String) (p : Place)
    (resG : FetchResult GeoBody) (resF : FetchResult ForecastBody)
    (hq : trim (effQuery text s.query) ≠ "")
    (hG : resG = FetchResult.thrown ∨ resG = FetchResult.badStatus)
    (hF : resF = FetchResult.thrown ∨ resF = FetchResult.badStatus) :
    ((searchCity s text resG).1.error = searchErrorMessage ∧
      (searchCity s text resG).1.cities = [] ∧
      (searchCity s text resG).1.recent = s.recent ∧
      (searchCity s text resG).1.place = s.place ∧
      (searchCity s text resG).1.hours = s.hours ∧
      (searchCity s text resG).1.mode = s.mode ∧
      (searchCity s text resG).1.query = s.query ∧
      (searchCity s text resG).1.loadingCity = false ∧
      (searchCity s text resG).1.loadingWx = s.loadingWx) ∧
    ((fetchWeather s (some p) resF).1.error = forecastErrorMessage ∧
      (fetchWeather s (some p) resF).1.hours = [] ∧
      (fetchWeather s (some p) resF).1.place = some p ∧
      (fetchWeather s (some p) resF).1.cities = s.cities ∧
      (fetchWeather s (some p) resF).1.recent = s.recent ∧
      (fetchWeather s (some p) resF).1.mode = s.mode ∧
      (fetchWeather s (some p) resF).1.query = s.query ∧
      (fetchWeather s (some p) resF).1.loadingWx = false ∧
      (fetchWeather s (some p) resF).1.loadingCity = s.loadingCity) := by
  constructor
  · rcases hG with rfl | rfl <;>
      · unfold searchCity
        simp [hq]
  · rcases hF with rfl | rfl <;>
      · unfold fetchWeather fetchWeatherFinish fetchWeatherStart
        simp

/-- Witness for the amended C6 at a concrete state and failure outcomes. -/
theorem flows_failure_behavior_witness :
    trim (effQuery (some "Hamilton") initialState.query) ≠ "" ∧
    ((searchCity initialState (some "Hamilton") FetchResult.thrown).1.error
        = searchErrorMessage) ∧
    (fetchWeather initialState (some (Place.mk "1" "Hamilton" "Canada" 43 (-79)))
        FetchResult.badStatus).1.hours = [] :=
  ⟨by decide,
   (flows_failure_behavior initialState (some "Hamilton")
      (Place.mk "1" "Hamilton" "Canada" 43 (-79)) FetchResult.thrown
      FetchResult.badStatus (by decide) (Or.inl rfl) (Or.inr rfl)).1.1,
   (flows_failure_behavior initialState (some "Hamilton")
      (Place.mk "1" "Hamilton" "Canada" 43 (-79)) FetchResult.thrown
      FetchResult.badStatus (by decide) (Or.inl rfl) (Or.inr rfl)).2.2.1⟩

/-- C8: with a place selected, switching the display mode issues exactly one
forecast request, aimed at the currently selected place (with the new
mode's field list); the synchronous start of the fetch clears the hour
sequence, and on completion the displayed hours are exactly the rows built
from the new response — at no point does the state hold a mixture of old
and new samples. -/
theorem switchMode_one_fetch (s : AppState) (m : Mode) (p : Place) (b : ForecastBody)
    (hp : s.place = some p) :
    (switchMode s m (FetchResult.ok b)).2 = [forecastRequest m p] ∧
    (fetchWeatherStart { s with mode := m } p).hours = [] ∧
    (switchMode s m (FetchResult.ok b)).1.hours = mkRows b ∧
    (switchMode s m (FetchResult.ok b)).1.mode = m ∧
    (switchMode s m (FetchResult.ok b)).1.place = some p := by
  unfold switchMode fetchWeather fetchWeatherFinish fetchWeatherStart
  simp [hp]

/-- Witness for C8: switching to `precip` with "Hamilton" selected. -/
theorem switchMode_one_fetch_witness :
    ({ initialState with
        place := some (Place.mk "1" "Hamilton" "Canada" 43 (-79)) } : AppState).place
      = some (Place.mk "1" "Hamilton" "Canada" 43 (-79)) ∧
    (switchMode
        { initialState with place := some (Place.mk "1" "Hamilton" "Canada" 43 (-79)) }
        Mode.precip (FetchResult.ok (ForecastBody.mk none))).2
      = [forecastRequest Mode.precip (Place.mk "1" "Hamilton" "Canada" 43 (-79))] :=
  ⟨rfl,
   (switchMode_one_fetch
      { initialState with place := some (Place.mk "1" "Hamilton" "Canada" 43 (-79)) }
      Mode.precip (Place.mk "1" "Hamilton" "Canada" 43 (-79))
      (ForecastBody.mk none) rfl).1⟩

/-- C9: the forecast flow records the requested place as selected before the
network resolves (already after its synchronous prefix), so after a failed
fetch the selected place is still the requested one, while the hour sequence
is empty and the forecast error message is set. -/
theorem fetchWeather_failure_place_kept (s : AppState) (p : Place)
    (res : FetchResult ForecastBody)
    (hfail : res = FetchResult.thrown ∨ res = FetchResult.badStatus) :
    (fetchWeatherStart s p).place = some p ∧
    (fetchWeather s (some p) res).1.place = some p ∧
    (fetchWeather s (some p) res).1.hours = [] ∧
    (fetchWeather s (some p) res).1.error = forecastErrorMessage := by
  refine ⟨rfl, ?_⟩
  rcases hfail with rfl | rfl <;> exact ⟨rfl, rfl, rfl⟩

/-- Witness for C9 at a concrete place and a thrown fetch. -/
theorem fetchWeather_failure_place_kept_witness :
    ((FetchResult.thrown : FetchResult ForecastBody) = FetchResult.thrown ∨
      (FetchResult.thrown : FetchResult ForecastBody) = FetchResult.badStatus) ∧
    (fetchWeather initialState (some (Place.mk "1" "Hamilton" "Canada" 43 (-79)))
        FetchResult.thrown).1.place
      = some (Place.mk "1" "Hamilton" "Canada" 43 (-79)) :=
  ⟨Or.inl rfl,
   (fetchWeather_failure_place_kept initialState
      (Place.mk "1" "Hamilton" "Canada" 43 (-79)) FetchResult.thrown
      (Or.inl rfl)).2.1⟩

end Aurora
